import Mathlib

/-!
# ckb-vm core executors: a shallow embedding

This file embeds the three source files of the repository fragment:

* `src/instructions/common.rs` — ALU, load and jump executors plus the
  duplicated probe helpers (namespace `CkbVM.Common`);
* `src/probe.rs` — the authoritative probe helpers (namespace `CkbVM.Probe`);
* `definitions/src/instructions.rs` — the first-level opcode constants and
  the diagnostic name table (namespace `CkbVM`).

The machine word is RV64: register values are natural numbers below `2 ^ 64`
and every operation wraps explicitly at that modulus.  Parts of the engine
that the fragment only references (the `Register` trait implementation, the
`Machine` capability set, the `Error` enum, `RISCV_MAX_MEMORY`, the register
index constants) are modelled from the specification and marked as such.
-/

namespace CkbVM

/-- Modelled from the spec: the error kinds of section 7; the `Error` enum
itself is outside the provided fragment. -/
inductive Error where
  | InvalidInstruction (raw : Nat) (pc : Nat)
  | MemOutOfBound
  | Unaligned
  | InvalidOp (op : Nat) (op2 : Nat)
  | CyclesExceeded
  | ExternalRequest
deriving DecidableEq

/-- Modelled from the spec: `RISCV_MAX_MEMORY` is the bounded memory size,
4 MiB in the boundary-scenario table of section 8. -/
def RISCV_MAX_MEMORY : Nat := 4 * 1024 * 1024

/-! ## The 64-bit machine word (REG)

Modelled from the spec, section 4.1: register values are `u64`s represented
as naturals below `2 ^ 64`; all arithmetic is two's-complement modular. -/

/-- Modelled from the spec: `from_i32` sign-extends a 32-bit immediate to the
64-bit word (two's complement representative). -/
def from_i32 (imm : Int) : Nat := (imm.emod (2 ^ 64)).toNat

/-- Modelled from the spec: `from_u8` converts a byte to the word,
value-preserving. -/
def from_u8 (v : Nat) : Nat := v

/-- Modelled from the spec: `to_u64` on the 64-bit word is the identity. -/
def to_u64 (v : Nat) : Nat := v

/-- Modelled from the spec: wrapping addition at 64 bits. -/
def overflowing_add (a b : Nat) : Nat := (a + b) % 2 ^ 64

/-- Modelled from the spec: wrapping subtraction at 64 bits. -/
def overflowing_sub (a b : Nat) : Nat := (a + (2 ^ 64 - b % 2 ^ 64)) % 2 ^ 64

/-- Modelled from the spec: `zero_extend` keeps the low `bits` bits. -/
def zero_extend (v bits : Nat) : Nat := v % 2 ^ bits

/-- Modelled from the spec: `sign_extend` treats the low `bits` bits as the
source width and fills the upper bits with the sign bit. -/
def sign_extend (v bits : Nat) : Nat :=
  let low := v % 2 ^ bits
  if low < 2 ^ (bits - 1) then low else low + (2 ^ 64 - 2 ^ bits)

/-- Modelled from the spec: logical left shift, amount taken modulo 64. -/
def shl (a s : Nat) : Nat := a * 2 ^ (s % 64) % 2 ^ 64

/-- Modelled from the spec: logical right shift, amount taken modulo 64. -/
def shr (a s : Nat) : Nat := a % 2 ^ 64 / 2 ^ (s % 64)

/-- The signed (two's complement) reading of a 64-bit word. -/
def toSigned64 (v : Nat) : Int :=
  if v % 2 ^ 64 < 2 ^ 63 then (v % 2 ^ 64 : Int) else (v % 2 ^ 64 : Int) - 2 ^ 64

/-- Modelled from the spec: arithmetic right shift (floor division of the
signed reading), amount taken modulo 64. -/
def signed_shr (a s : Nat) : Nat :=
  (((toSigned64 a).ediv (2 ^ (s % 64))).emod (2 ^ 64)).toNat

/-! ## Machine state -/

/-- Modelled from the spec: the memory capability interface consumed from the
host, section 6 — four little-endian loads, each returning a value or
`OutOfBound`.  Loads are modelled as pure reads. -/
structure Memory where
  load8 : Nat → Except Error Nat
  load16 : Nat → Except Error Nat
  load32 : Nat → Except Error Nat
  load64 : Nat → Except Error Nat

/-- Modelled from the spec: the Machine capability set — 32 general-purpose
registers, a program counter, and the memory interface. -/
structure Machine where
  registers : Fin 32 → Nat
  pc : Nat
  mem : Memory

/-- Modelled from the spec: `update_register` is the single helper through
which every executor writes a register; writes to r0 are silently dropped. -/
def update_register (m : Machine) (rd : Fin 32) (v : Nat) : Machine :=
  if rd = 0 then m else { m with registers := Function.update m.registers rd v }

/-- Modelled from the spec: `update_pc` sets the program counter. -/
def update_pc (m : Machine) (pc : Nat) : Machine := { m with pc := pc }

/-- Modelled from the spec: the return-address register r1. -/
def RA : Fin 32 := 1

/-- Modelled from the spec: argument registers a0..a7 are r10..r17. -/
def A0 : Fin 32 := 10

def A1 : Fin 32 := 11

def A2 : Fin 32 := 12

def A3 : Fin 32 := 13

def A4 : Fin 32 := 14

def A5 : Fin 32 := 15

def A6 : Fin 32 := 16

def A7 : Fin 32 := 17

/-- A probe invocation (the `probe::probe!` macro): pure observability, the
event records the values read at the call site. -/
inductive ProbeEvent where
  | jump (link : Nat) (next_pc : Nat)
  | function_call_arguments (current_pc next_pc a0 a1 a2 a3 : Nat)
  | function_call2 (current_pc next_pc a4 a5 a6 a7 : Nat)
  | function_return (current_pc return_pc a0 a1 : Nat)
  | syscall (code arg0 arg1 arg2 arg3 arg4 arg5 : Nat)
  | syscall_ret (code ret_code ret_code2 : Nat)
deriving DecidableEq

end CkbVM

/-! ## src/probe.rs -/

namespace CkbVM.Probe

/-- `probe_function_call` from `src/probe.rs`: reads a0..a7 and emits the
`function_call_arguments` and `function_call2` probes. -/
def probe_function_call (machine : Machine) (current_pc next_pc : Nat) :
    Machine × List ProbeEvent :=
  let a0 := to_u64 (machine.registers A0)
  let a1 := to_u64 (machine.registers A1)
  let a2 := to_u64 (machine.registers A2)
  let a3 := to_u64 (machine.registers A3)
  let a4 := to_u64 (machine.registers A4)
  let a5 := to_u64 (machine.registers A5)
  let a6 := to_u64 (machine.registers A6)
  let a7 := to_u64 (machine.registers A7)
  (machine,
    [ProbeEvent.function_call_arguments (to_u64 current_pc) (to_u64 next_pc) a0 a1 a2 a3,
     ProbeEvent.function_call2 (to_u64 current_pc) (to_u64 next_pc) a4 a5 a6 a7])

/-- `probe_function_return` from `src/probe.rs`. -/
def probe_function_return (machine : Machine) (current_pc return_pc : Nat) :
    Machine × List ProbeEvent :=
  let a0 := to_u64 (machine.registers A0)
  let a1 := to_u64 (machine.registers A1)
  (machine, [ProbeEvent.function_return (to_u64 current_pc) (to_u64 return_pc) a0 a1])

/-- `probe_jump` from `src/probe.rs`; the raw register/memory pointers passed
to the sink address the machine's own state, which the event's machine
component already carries. -/
def probe_jump (machine : Machine) (link next_pc : Nat) :
    Machine × List ProbeEvent :=
  (machine, [ProbeEvent.jump (to_u64 link) (to_u64 next_pc)])

/-- `probe_syscall` from `src/probe.rs`. -/
def probe_syscall (machine : Machine) (code : Nat) :
    Machine × List ProbeEvent :=
  let arg0 := to_u64 (machine.registers A0)
  let arg1 := to_u64 (machine.registers A1)
  let arg2 := to_u64 (machine.registers A2)
  let arg3 := to_u64 (machine.registers A3)
  let arg4 := to_u64 (machine.registers A4)
  let arg5 := to_u64 (machine.registers A5)
  (machine, [ProbeEvent.syscall code arg0 arg1 arg2 arg3 arg4 arg5])

/-- `probe_syscall_return` from `src/probe.rs`. -/
def probe_syscall_return (machine : Machine) (code : Nat) :
    Machine × List ProbeEvent :=
  let ret_code := to_u64 (machine.registers A0)
  let ret_code2 := to_u64 (machine.registers A1)
  (machine, [ProbeEvent.syscall_ret code ret_code ret_code2])

end CkbVM.Probe

/-! ## src/instructions/common.rs -/

namespace CkbVM.Common

/-- `add`. -/
def add (machine : Machine) (rd rs1 rs2 : Fin 32) : Machine :=
  let rs1_value := machine.registers rs1
  let rs2_value := machine.registers rs2
  let value := overflowing_add rs1_value rs2_value
  update_register machine rd value

/-- `addw`. -/
def addw (machine : Machine) (rd rs1 rs2 : Fin 32) : Machine :=
  let rs1_value := machine.registers rs1
  let rs2_value := machine.registers rs2
  let value := overflowing_add rs1_value rs2_value
  update_register machine rd (sign_extend value (from_u8 32))

/-- `sub`. -/
def sub (machine : Machine) (rd rs1 rs2 : Fin 32) : Machine :=
  let rs1_value := machine.registers rs1
  let rs2_value := machine.registers rs2
  let value := overflowing_sub rs1_value rs2_value
  update_register machine rd value

/-- `subw`. -/
def subw (machine : Machine) (rd rs1 rs2 : Fin 32) : Machine :=
  let rs1_value := machine.registers rs1
  let rs2_value := machine.registers rs2
  let value := overflowing_sub rs1_value rs2_value
  update_register machine rd (sign_extend value (from_u8 32))

/-- `addi`. -/
def addi (machine : Machine) (rd rs1 : Fin 32) (imm : Int) : Machine :=
  let value := overflowing_add (machine.registers rs1) (from_i32 imm)
  update_register machine rd value

/-- `addiw`. -/
def addiw (machine : Machine) (rd rs1 : Fin 32) (imm : Int) : Machine :=
  let value := overflowing_add (machine.registers rs1) (from_i32 imm)
  update_register machine rd (sign_extend value (from_u8 32))

/-- `checked_add` on `u64` (`None` on overflow). -/
def checked_add (a b : Nat) : Option Nat :=
  if a + b < 2 ^ 64 then some (a + b) else none

/-- `check_load_boundary`. -/
def check_load_boundary (version0 : Bool) (address : Nat) (bytes : Nat) :
    Except Error Unit :=
  if version0 then
    let address := to_u64 address
    match checked_add address bytes with
    | none => Except.error Error.MemOutOfBound
    | some e =>
      if e = RISCV_MAX_MEMORY then Except.error Error.MemOutOfBound else Except.ok ()
  else Except.ok ()

/-- `lb`: the `Option Error` component is `some e` exactly when the Rust
function returns `Err(e)`, in which case the returned machine is the input
machine (the early `?` returns happen before any register write). -/
def lb (machine : Machine) (rd rs1 : Fin 32) (imm : Int) (version0 : Bool) :
    Machine × Option Error :=
  let address := overflowing_add (machine.registers rs1) (from_i32 imm)
  match check_load_boundary version0 address 1 with
  | Except.error e => (machine, some e)
  | Except.ok _ =>
    match machine.mem.load8 address with
    | Except.error e => (machine, some e)
    | Except.ok value =>
      (update_register machine rd (sign_extend value (from_u8 8)), none)

/-- `lh`. -/
def lh (machine : Machine) (rd rs1 : Fin 32) (imm : Int) (version0 : Bool) :
    Machine × Option Error :=
  let address := overflowing_add (machine.registers rs1) (from_i32 imm)
  match check_load_boundary version0 address 2 with
  | Except.error e => (machine, some e)
  | Except.ok _ =>
    match machine.mem.load16 address with
    | Except.error e => (machine, some e)
    | Except.ok value =>
      (update_register machine rd (sign_extend value (from_u8 16)), none)

/-- `lw`. -/
def lw (machine : Machine) (rd rs1 : Fin 32) (imm : Int) (version0 : Bool) :
    Machine × Option Error :=
  let address := overflowing_add (machine.registers rs1) (from_i32 imm)
  match check_load_boundary version0 address 4 with
  | Except.error e => (machine, some e)
  | Except.ok _ =>
    match machine.mem.load32 address with
    | Except.error e => (machine, some e)
    | Except.ok value =>
      (update_register machine rd (sign_extend value (from_u8 32)), none)

/-- `ld`. -/
def ld (machine : Machine) (rd rs1 : Fin 32) (imm : Int) (version0 : Bool) :
    Machine × Option Error :=
  let address := overflowing_add (machine.registers rs1) (from_i32 imm)
  match check_load_boundary version0 address 8 with
  | Except.error e => (machine, some e)
  | Except.ok _ =>
    match machine.mem.load64 address with
    | Except.error e => (machine, some e)
    | Except.ok value =>
      (update_register machine rd (sign_extend value (from_u8 64)), none)

/-- `lbu`. -/
def lbu (machine : Machine) (rd rs1 : Fin 32) (imm : Int) (version0 : Bool) :
    Machine × Option Error :=
  let address := overflowing_add (machine.registers rs1) (from_i32 imm)
  match check_load_boundary version0 address 1 with
  | Except.error e => (machine, some e)
  | Except.ok _ =>
    match machine.mem.load8 address with
    | Except.error e => (machine, some e)
    | Except.ok value => (update_register machine rd value, none)

/-- `lhu`. -/
def lhu (machine : Machine) (rd rs1 : Fin 32) (imm : Int) (version0 : Bool) :
    Machine × Option Error :=
  let address := overflowing_add (machine.registers rs1) (from_i32 imm)
  match check_load_boundary version0 address 2 with
  | Except.error e => (machine, some e)
  | Except.ok _ =>
    match machine.mem.load16 address with
    | Except.error e => (machine, some e)
    | Except.ok value => (update_register machine rd value, none)

/-- `lwu`. -/
def lwu (machine : Machine) (rd rs1 : Fin 32) (imm : Int) (version0 : Bool) :
    Machine × Option Error :=
  let address := overflowing_add (machine.registers rs1) (from_i32 imm)
  match check_load_boundary version0 address 4 with
  | Except.error e => (machine, some e)
  | Except.ok _ =>
    match machine.mem.load32 address with
    | Except.error e => (machine, some e)
    | Except.ok value => (update_register machine rd value, none)

/-- `and` (register names follow the source). -/
def and (machine : Machine) (rd rs1 rs2 : Fin 32) : Machine :=
  let rs1_value := machine.registers rs1
  let rs2_value := machine.registers rs2
  let value := rs1_value &&& rs2_value
  update_register machine rd value

/-- `xor`. -/
def xor (machine : Machine) (rd rs1 rs2 : Fin 32) : Machine :=
  let rs1_value := machine.registers rs1
  let rs2_value := machine.registers rs2
  let value := rs1_value ^^^ rs2_value
  update_register machine rd value

/-- `or`. -/
def or (machine : Machine) (rd rs1 rs2 : Fin 32) : Machine :=
  let rs1_value := machine.registers rs1
  let rs2_value := machine.registers rs2
  let value := rs1_value ||| rs2_value
  update_register machine rd value

/-- `andi`. -/
def andi (machine : Machine) (rd rs1 : Fin 32) (imm : Int) : Machine :=
  let value := machine.registers rs1 &&& from_i32 imm
  update_register machine rd value

/-- `xori`. -/
def xori (machine : Machine) (rd rs1 : Fin 32) (imm : Int) : Machine :=
  let value := machine.registers rs1 ^^^ from_i32 imm
  update_register machine rd value

/-- `ori`. -/
def ori (machine : Machine) (rd rs1 : Fin 32) (imm : Int) : Machine :=
  let value := machine.registers rs1 ||| from_i32 imm
  update_register machine rd value

/-- `slli`. -/
def slli (machine : Machine) (rd rs1 : Fin 32) (shamt : Nat) : Machine :=
  let value := shl (machine.registers rs1) shamt
  update_register machine rd value

/-- `srli`. -/
def srli (machine : Machine) (rd rs1 : Fin 32) (shamt : Nat) : Machine :=
  let value := shr (machine.registers rs1) shamt
  update_register machine rd value

/-- `srai`. -/
def srai (machine : Machine) (rd rs1 : Fin 32) (shamt : Nat) : Machine :=
  let value := signed_shr (machine.registers rs1) shamt
  update_register machine rd value

/-- `slliw`. -/
def slliw (machine : Machine) (rd rs1 : Fin 32) (shamt : Nat) : Machine :=
  let value := shl (machine.registers rs1) shamt
  update_register machine rd (sign_extend value (from_u8 32))

/-- `srliw`. -/
def srliw (machine : Machine) (rd rs1 : Fin 32) (shamt : Nat) : Machine :=
  let value := shr (zero_extend (machine.registers rs1) (from_u8 32)) shamt
  update_register machine rd (sign_extend value (from_u8 32))

/-- `sraiw`. -/
def sraiw (machine : Machine) (rd rs1 : Fin 32) (shamt : Nat) : Machine :=
  let value := signed_shr (sign_extend (machine.registers rs1) (from_u8 32)) shamt
  update_register machine rd (sign_extend value (from_u8 32))

/-- `probe_function_call` as duplicated in `src/instructions/common.rs`. -/
def probe_function_call (machine : Machine) (current_pc next_pc : Nat) :
    Machine × List ProbeEvent :=
  let a0 := to_u64 (machine.registers A0)
  let a1 := to_u64 (machine.registers A1)
  let a2 := to_u64 (machine.registers A2)
  let a3 := to_u64 (machine.registers A3)
  let a4 := to_u64 (machine.registers A4)
  let a5 := to_u64 (machine.registers A5)
  let a6 := to_u64 (machine.registers A6)
  let a7 := to_u64 (machine.registers A7)
  (machine,
    [ProbeEvent.function_call_arguments (to_u64 current_pc) (to_u64 next_pc) a0 a1 a2 a3,
     ProbeEvent.function_call2 (to_u64 current_pc) (to_u64 next_pc) a4 a5 a6 a7])

/-- `probe_function_return` as duplicated in `src/instructions/common.rs`. -/
def probe_function_return (machine : Machine) (current_pc return_pc : Nat) :
    Machine × List ProbeEvent :=
  let a0 := to_u64 (machine.registers A0)
  let a1 := to_u64 (machine.registers A1)
  (machine, [ProbeEvent.function_return (to_u64 current_pc) (to_u64 return_pc) a0 a1])

/-- `probe_jump` as duplicated in `src/instructions/common.rs`. -/
def probe_jump (machine : Machine) (link next_pc : Nat) :
    Machine × List ProbeEvent :=
  (machine, [ProbeEvent.jump (to_u64 link) (to_u64 next_pc)])

/-- `jal`: the probe helpers it calls are the local (`common.rs`) ones; the
second component collects the probe events in firing order. -/
def jal (machine : Machine) (rd : Fin 32) (imm : Int) (xbytes : Nat) :
    Machine × List ProbeEvent :=
  let link := overflowing_add machine.pc (from_u8 xbytes)
  let machine1 := update_register machine rd link
  let next_pc := overflowing_add machine1.pc (from_i32 imm)
  let jp := probe_jump machine1 link next_pc
  let fc :=
    if rd = RA then probe_function_call jp.1 jp.1.pc next_pc else (jp.1, [])
  (update_pc fc.1 next_pc, jp.2 ++ fc.2)

end CkbVM.Common


/-! ## definitions/src/instructions.rs -/

namespace CkbVM

/-- The first-level opcode constants (values as in the source). -/
def OP_UNLOADED : Nat := 0x10

def OP_ADD : Nat := 0x11

def OP_ADDI : Nat := 0x12

def OP_ADDIW : Nat := 0x13

def OP_ADDW : Nat := 0x14

def OP_AND : Nat := 0x15

def OP_ANDI : Nat := 0x16

def OP_AUIPC : Nat := 0x17

def OP_BEQ : Nat := 0x18

def OP_BGE : Nat := 0x19

def OP_BGEU : Nat := 0x1a

def OP_BLT : Nat := 0x1b

def OP_BLTU : Nat := 0x1c

def OP_BNE : Nat := 0x1d

def OP_DIV : Nat := 0x1e

def OP_DIVU : Nat := 0x1f

def OP_DIVUW : Nat := 0x20

def OP_DIVW : Nat := 0x21

def OP_EBREAK : Nat := 0x22

def OP_ECALL : Nat := 0x23

def OP_FENCE : Nat := 0x24

def OP_FENCEI : Nat := 0x25

def OP_JAL : Nat := 0x26

def OP_JALR_VERSION0 : Nat := 0x27

def OP_JALR_VERSION1 : Nat := 0x28

def OP_LB_VERSION0 : Nat := 0x29

def OP_LB_VERSION1 : Nat := 0x2a

def OP_LBU_VERSION0 : Nat := 0x2b

def OP_LBU_VERSION1 : Nat := 0x2c

def OP_LD_VERSION0 : Nat := 0x2d

def OP_LD_VERSION1 : Nat := 0x2e

def OP_LH_VERSION0 : Nat := 0x2f

def OP_LH_VERSION1 : Nat := 0x30

def OP_LHU_VERSION0 : Nat := 0x31

def OP_LHU_VERSION1 : Nat := 0x32

def OP_LUI : Nat := 0x33

def OP_LW_VERSION0 : Nat := 0x34

def OP_LW_VERSION1 : Nat := 0x35

def OP_LWU_VERSION0 : Nat := 0x36

def OP_LWU_VERSION1 : Nat := 0x37

def OP_MUL : Nat := 0x38

def OP_MULH : Nat := 0x39

def OP_MULHSU : Nat := 0x3a

def OP_MULHU : Nat := 0x3b

def OP_MULW : Nat := 0x3c

def OP_OR : Nat := 0x3d

def OP_ORI : Nat := 0x3e

def OP_REM : Nat := 0x3f

def OP_REMU : Nat := 0x40

def OP_REMUW : Nat := 0x41

def OP_REMW : Nat := 0x42

def OP_SB : Nat := 0x43

def OP_SD : Nat := 0x44

def OP_SH : Nat := 0x45

def OP_SLL : Nat := 0x46

def OP_SLLI : Nat := 0x47

def OP_SLLIW : Nat := 0x48

def OP_SLLW : Nat := 0x49

def OP_SLT : Nat := 0x4a

def OP_SLTI : Nat := 0x4b

def OP_SLTIU : Nat := 0x4c

def OP_SLTU : Nat := 0x4d

def OP_SRA : Nat := 0x4e

def OP_SRAI : Nat := 0x4f

def OP_SRAIW : Nat := 0x50

def OP_SRAW : Nat := 0x51

def OP_SRL : Nat := 0x52

def OP_SRLI : Nat := 0x53

def OP_SRLIW : Nat := 0x54

def OP_SRLW : Nat := 0x55

def OP_SUB : Nat := 0x56

def OP_SUBW : Nat := 0x57

def OP_SW : Nat := 0x58

def OP_XOR : Nat := 0x59

def OP_XORI : Nat := 0x5a

def OP_LR_W : Nat := 0x5b

def OP_SC_W : Nat := 0x5c

def OP_AMOSWAP_W : Nat := 0x5d

def OP_AMOADD_W : Nat := 0x5e

def OP_AMOXOR_W : Nat := 0x5f

def OP_AMOAND_W : Nat := 0x60

def OP_AMOOR_W : Nat := 0x61

def OP_AMOMIN_W : Nat := 0x62

def OP_AMOMAX_W : Nat := 0x63

def OP_AMOMINU_W : Nat := 0x64

def OP_AMOMAXU_W : Nat := 0x65

def OP_LR_D : Nat := 0x66

def OP_SC_D : Nat := 0x67

def OP_AMOSWAP_D : Nat := 0x68

def OP_AMOADD_D : Nat := 0x69

def OP_AMOXOR_D : Nat := 0x6a

def OP_AMOAND_D : Nat := 0x6b

def OP_AMOOR_D : Nat := 0x6c

def OP_AMOMIN_D : Nat := 0x6d

def OP_AMOMAX_D : Nat := 0x6e

def OP_AMOMINU_D : Nat := 0x6f

def OP_AMOMAXU_D : Nat := 0x70

def OP_ADDUW : Nat := 0x71

def OP_ANDN : Nat := 0x72

def OP_BCLR : Nat := 0x73

def OP_BCLRI : Nat := 0x74

def OP_BEXT : Nat := 0x75

def OP_BEXTI : Nat := 0x76

def OP_BINV : Nat := 0x77

def OP_BINVI : Nat := 0x78

def OP_BSET : Nat := 0x79

def OP_BSETI : Nat := 0x7a

def OP_CLMUL : Nat := 0x7b

def OP_CLMULH : Nat := 0x7c

def OP_CLMULR : Nat := 0x7d

def OP_CLZ : Nat := 0x7e

def OP_CLZW : Nat := 0x7f

def OP_CPOP : Nat := 0x80

def OP_CPOPW : Nat := 0x81

def OP_CTZ : Nat := 0x82

def OP_CTZW : Nat := 0x83

def OP_MAX : Nat := 0x84

def OP_MAXU : Nat := 0x85

def OP_MIN : Nat := 0x86

def OP_MINU : Nat := 0x87

def OP_ORCB : Nat := 0x88

def OP_ORN : Nat := 0x89

def OP_REV8 : Nat := 0x8a

def OP_ROL : Nat := 0x8b

def OP_ROLW : Nat := 0x8c

def OP_ROR : Nat := 0x8d

def OP_RORI : Nat := 0x8e

def OP_RORIW : Nat := 0x8f

def OP_RORW : Nat := 0x90

def OP_SEXTB : Nat := 0x91

def OP_SEXTH : Nat := 0x92

def OP_SH1ADD : Nat := 0x93

def OP_SH1ADDUW : Nat := 0x94

def OP_SH2ADD : Nat := 0x95

def OP_SH2ADDUW : Nat := 0x96

def OP_SH3ADD : Nat := 0x97

def OP_SH3ADDUW : Nat := 0x98

def OP_SLLIUW : Nat := 0x99

def OP_XNOR : Nat := 0x9a

def OP_ZEXTH : Nat := 0x9b

def OP_WIDE_MUL : Nat := 0x9c

def OP_WIDE_MULU : Nat := 0x9d

def OP_WIDE_MULSU : Nat := 0x9e

def OP_WIDE_DIV : Nat := 0x9f

def OP_WIDE_DIVU : Nat := 0xa0

def OP_FAR_JUMP_REL : Nat := 0xa1

def OP_FAR_JUMP_ABS : Nat := 0xa2

def OP_ADC : Nat := 0xa3

def OP_SBB : Nat := 0xa4

def OP_ADCS : Nat := 0xa5

def OP_SBBS : Nat := 0xa6

def OP_ADD3A : Nat := 0xa7

def OP_ADD3B : Nat := 0xa8

def OP_ADD3C : Nat := 0xa9

def OP_CUSTOM_LOAD_UIMM : Nat := 0xaa

def OP_CUSTOM_LOAD_IMM : Nat := 0xab

def OP_CUSTOM_TRACE_END : Nat := 0xac

/-- `MINIMAL_OPCODE`. -/
def MINIMAL_OPCODE : Nat := OP_UNLOADED

/-- `MAXIMUM_OPCODE`. -/
def MAXIMUM_OPCODE : Nat := OP_CUSTOM_TRACE_END

/-- `INSTRUCTION_OPCODE_NAMES`, in source order. -/
def INSTRUCTION_OPCODE_NAMES : List String := [
  "UNLOADED", "ADD", "ADDI", "ADDIW", "ADDW", "AND",
  "ANDI", "AUIPC", "BEQ", "BGE", "BGEU", "BLT",
  "BLTU", "BNE", "DIV", "DIVU", "DIVUW", "DIVW",
  "EBREAK", "ECALL", "FENCE", "FENCEI", "JAL", "JALR_VERSION0",
  "JALR_VERSION1", "LB_VERSION0", "LB_VERSION1", "LBU_VERSION0", "LBU_VERSION1", "LD_VERSION0",
  "LD_VERSION1", "LH_VERSION0", "LH_VERSION1", "LHU_VERSION0", "LHU_VERSION1", "LUI",
  "LW_VERSION0", "LW_VERSION1", "LWU_VERSION0", "LWU_VERSION1", "MUL", "MULH",
  "MULHSU", "MULHU", "MULW", "OR", "ORI", "REM",
  "REMU", "REMUW", "REMW", "SB", "SD", "SH",
  "SLL", "SLLI", "SLLIW", "SLLW", "SLT", "SLTI",
  "SLTIU", "SLTU", "SRA", "SRAI", "SRAIW", "SRAW",
  "SRL", "SRLI", "SRLIW", "SRLW", "SUB", "SUBW",
  "SW", "XOR", "XORI", "LR_W", "SC_W", "AMOSWAP_W",
  "AMOADD_W", "AMOXOR_W", "AMOAND_W", "AMOOR_W", "AMOMIN_W", "AMOMAX_W",
  "AMOMINU_W", "AMOMAXU_W", "LR_D", "SC_D", "AMOSWAP_D", "AMOADD_D",
  "AMOXOR_D", "AMOAND_D", "AMOOR_D", "AMOMIN_D", "AMOMAX_D", "AMOMINU_D",
  "AMOMAXU_D", "ADDUW", "ANDN", "BCLR", "BCLRI", "BEXT",
  "BEXTI", "BINV", "BINVI", "BSET", "BSETI", "CLMUL",
  "CLMULH", "CLMULR", "CLZ", "CLZW", "CPOP", "CPOPW",
  "CTZ", "CTZW", "MAX", "MAXU", "MIN", "MINU",
  "ORCB", "ORN", "REV8", "ROL", "ROLW", "ROR",
  "RORI", "RORIW", "RORW", "SEXTB", "SEXTH", "SH1ADD",
  "SH1ADDUW", "SH2ADD", "SH2ADDUW", "SH3ADD", "SH3ADDUW", "SLLIUW",
  "XNOR", "ZEXTH", "WIDE_MUL", "WIDE_MULU", "WIDE_MULSU", "WIDE_DIV",
  "WIDE_DIVU", "FAR_JUMP_REL", "FAR_JUMP_ABS", "ADC", "SBB", "ADCS",
  "SBBS", "ADD3A", "ADD3B", "ADD3C", "CUSTOM_LOAD_UIMM", "CUSTOM_LOAD_IMM",
  "CUSTOM_TRACE_END"]

/-- `instruction_opcode_name` (the source indexes the array directly; the
default value is never reached for in-bounds opcodes). -/
def instruction_opcode_name (i : Nat) : String :=
  INSTRUCTION_OPCODE_NAMES.getD (i - MINIMAL_OPCODE) ""

/-- The opcode constants listed in the order the specification's section 6
table enumerates them (which is also source order). -/
def specOrderOpcodes : List Nat := [OP_UNLOADED, OP_ADD, OP_ADDI, OP_ADDIW, OP_ADDW,
   OP_AND, OP_ANDI, OP_AUIPC, OP_BEQ, OP_BGE,
   OP_BGEU, OP_BLT, OP_BLTU, OP_BNE, OP_DIV,
   OP_DIVU, OP_DIVUW, OP_DIVW, OP_EBREAK, OP_ECALL,
   OP_FENCE, OP_FENCEI, OP_JAL, OP_JALR_VERSION0, OP_JALR_VERSION1,
   OP_LB_VERSION0, OP_LB_VERSION1, OP_LBU_VERSION0, OP_LBU_VERSION1, OP_LD_VERSION0,
   OP_LD_VERSION1, OP_LH_VERSION0, OP_LH_VERSION1, OP_LHU_VERSION0, OP_LHU_VERSION1,
   OP_LUI, OP_LW_VERSION0, OP_LW_VERSION1, OP_LWU_VERSION0, OP_LWU_VERSION1,
   OP_MUL, OP_MULH, OP_MULHSU, OP_MULHU, OP_MULW,
   OP_OR, OP_ORI, OP_REM, OP_REMU, OP_REMUW,
   OP_REMW, OP_SB, OP_SD, OP_SH, OP_SLL,
   OP_SLLI, OP_SLLIW, OP_SLLW, OP_SLT, OP_SLTI,
   OP_SLTIU, OP_SLTU, OP_SRA, OP_SRAI, OP_SRAIW,
   OP_SRAW, OP_SRL, OP_SRLI, OP_SRLIW, OP_SRLW,
   OP_SUB, OP_SUBW, OP_SW, OP_XOR, OP_XORI,
   OP_LR_W, OP_SC_W, OP_AMOSWAP_W, OP_AMOADD_W, OP_AMOXOR_W,
   OP_AMOAND_W, OP_AMOOR_W, OP_AMOMIN_W, OP_AMOMAX_W, OP_AMOMINU_W,
   OP_AMOMAXU_W, OP_LR_D, OP_SC_D, OP_AMOSWAP_D, OP_AMOADD_D,
   OP_AMOXOR_D, OP_AMOAND_D, OP_AMOOR_D, OP_AMOMIN_D, OP_AMOMAX_D,
   OP_AMOMINU_D, OP_AMOMAXU_D, OP_ADDUW, OP_ANDN, OP_BCLR,
   OP_BCLRI, OP_BEXT, OP_BEXTI, OP_BINV, OP_BINVI,
   OP_BSET, OP_BSETI, OP_CLMUL, OP_CLMULH, OP_CLMULR,
   OP_CLZ, OP_CLZW, OP_CPOP, OP_CPOPW, OP_CTZ,
   OP_CTZW, OP_MAX, OP_MAXU, OP_MIN, OP_MINU,
   OP_ORCB, OP_ORN, OP_REV8, OP_ROL, OP_ROLW,
   OP_ROR, OP_RORI, OP_RORIW, OP_RORW, OP_SEXTB,
   OP_SEXTH, OP_SH1ADD, OP_SH1ADDUW, OP_SH2ADD, OP_SH2ADDUW,
   OP_SH3ADD, OP_SH3ADDUW, OP_SLLIUW, OP_XNOR, OP_ZEXTH,
   OP_WIDE_MUL, OP_WIDE_MULU, OP_WIDE_MULSU, OP_WIDE_DIV, OP_WIDE_DIVU,
   OP_FAR_JUMP_REL, OP_FAR_JUMP_ABS, OP_ADC, OP_SBB, OP_ADCS,
   OP_SBBS, OP_ADD3A, OP_ADD3B, OP_ADD3C, OP_CUSTOM_LOAD_UIMM,
   OP_CUSTOM_LOAD_IMM, OP_CUSTOM_TRACE_END]

/-- The enumeration of section 6 of the specification, exactly as printed
there (note the abbreviated `_V0` and `_V1` suffixes). -/
def specSection6Names : List String := [
  "UNLOADED", "ADD", "ADDI", "ADDIW", "ADDW", "AND",
  "ANDI", "AUIPC", "BEQ", "BGE", "BGEU", "BLT",
  "BLTU", "BNE", "DIV", "DIVU", "DIVUW", "DIVW",
  "EBREAK", "ECALL", "FENCE", "FENCEI", "JAL", "JALR_V0",
  "JALR_V1", "LB_V0", "LB_V1", "LBU_V0", "LBU_V1", "LD_V0",
  "LD_V1", "LH_V0", "LH_V1", "LHU_V0", "LHU_V1", "LUI",
  "LW_V0", "LW_V1", "LWU_V0", "LWU_V1", "MUL", "MULH",
  "MULHSU", "MULHU", "MULW", "OR", "ORI", "REM",
  "REMU", "REMUW", "REMW", "SB", "SD", "SH",
  "SLL", "SLLI", "SLLIW", "SLLW", "SLT", "SLTI",
  "SLTIU", "SLTU", "SRA", "SRAI", "SRAIW", "SRAW",
  "SRL", "SRLI", "SRLIW", "SRLW", "SUB", "SUBW",
  "SW", "XOR", "XORI", "LR_W", "SC_W", "AMOSWAP_W",
  "AMOADD_W", "AMOXOR_W", "AMOAND_W", "AMOOR_W", "AMOMIN_W", "AMOMAX_W",
  "AMOMINU_W", "AMOMAXU_W", "LR_D", "SC_D", "AMOSWAP_D", "AMOADD_D",
  "AMOXOR_D", "AMOAND_D", "AMOOR_D", "AMOMIN_D", "AMOMAX_D", "AMOMINU_D",
  "AMOMAXU_D", "ADDUW", "ANDN", "BCLR", "BCLRI", "BEXT",
  "BEXTI", "BINV", "BINVI", "BSET", "BSETI", "CLMUL",
  "CLMULH", "CLMULR", "CLZ", "CLZW", "CPOP", "CPOPW",
  "CTZ", "CTZW", "MAX", "MAXU", "MIN", "MINU",
  "ORCB", "ORN", "REV8", "ROL", "ROLW", "ROR",
  "RORI", "RORIW", "RORW", "SEXTB", "SEXTH", "SH1ADD",
  "SH1ADDUW", "SH2ADD", "SH2ADDUW", "SH3ADD", "SH3ADDUW", "SLLIUW",
  "XNOR", "ZEXTH", "WIDE_MUL", "WIDE_MULU", "WIDE_MULSU", "WIDE_DIV",
  "WIDE_DIVU", "FAR_JUMP_REL", "FAR_JUMP_ABS", "ADC", "SBB", "ADCS",
  "SBBS", "ADD3A", "ADD3B", "ADD3C", "CUSTOM_LOAD_UIMM", "CUSTOM_LOAD_IMM",
  "CUSTOM_TRACE_END"]

/-- Expand the abbreviated version suffixes of the specification's section 6
table to the full spellings (defined over the character list so that it
evaluates by kernel reduction). -/
def expandVersionSuffix (s : String) : String :=
  match s.data.reverse with
  | '0' :: 'V' :: '_' :: rest =>
    String.mk (rest.reverse ++ ['_', 'V', 'E', 'R', 'S', 'I', 'O', 'N', '0'])
  | '1' :: 'V' :: '_' :: rest =>
    String.mk (rest.reverse ++ ['_', 'V', 'E', 'R', 'S', 'I', 'O', 'N', '1'])
  | _ => s

end CkbVM

/-! ## Helper lemmas -/

namespace CkbVM

theorem update_register_pc (m : Machine) (rd : Fin 32) (v : Nat) :
    (update_register m rd v).pc = m.pc := by
  unfold update_register; split <;> rfl

theorem update_register_mem (m : Machine) (rd : Fin 32) (v : Nat) :
    (update_register m rd v).mem = m.mem := by
  unfold update_register; split <;> rfl

theorem update_register_zero (m : Machine) (v : Nat) :
    update_register m 0 v = m := by
  unfold update_register; simp

theorem update_register_self (m : Machine) (rd : Fin 32) (v : Nat) (h : rd ≠ 0) :
    (update_register m rd v).registers rd = v := by
  unfold update_register
  simp [h]

theorem update_register_other (m : Machine) (rd i : Fin 32) (v : Nat) (h : i ≠ rd) :
    (update_register m rd v).registers i = m.registers i := by
  unfold update_register
  split
  · rfl
  · simp [Function.update_noteq h]

theorem sign_extend_congr {a b : Nat} (bits : Nat) (h : a % 2 ^ bits = b % 2 ^ bits) :
    sign_extend a bits = sign_extend b bits := by
  unfold sign_extend; rw [h]

theorem pow32_dvd_pow64 : (2 : Nat) ^ 32 ∣ 2 ^ 64 := pow_dvd_pow 2 (by norm_num)

end CkbVM

namespace CkbVM

theorem mod32_of_mod64 (n : Nat) : n % 2 ^ 64 % 2 ^ 32 = n % 2 ^ 32 :=
  Nat.mod_mod_of_dvd _ pow32_dvd_pow64

/-- C2: `addw` writes `sign_extend_32 ((x[rs1] + x[rs2]) mod 2^32)` to rd,
`subw` writes `sign_extend_32 ((x[rs1] - x[rs2]) mod 2^32)` and `addiw`
writes `sign_extend_32 ((x[rs1] + sign_ext(imm)) mod 2^32)` (rd nonzero):
the full-width wrapping operation followed by sign-extension from bit 32
equals computing at 32 bits then sign-extending. -/
theorem addw_subw_addiw_compute_at_32_bits
    (m : Machine) (rd rs1 rs2 : Fin 32) (imm : Int) (h : rd ≠ 0) :
    (Common.addw m rd rs1 rs2).registers rd
      = sign_extend ((m.registers rs1 + m.registers rs2) % 2 ^ 32) 32
    ∧ (Common.subw m rd rs1 rs2).registers rd
      = sign_extend
          ((((m.registers rs1 : Int) - (m.registers rs2 : Int)) % (2 ^ 32 : Int)).toNat) 32
    ∧ (Common.addiw m rd rs1 imm).registers rd
      = sign_extend ((m.registers rs1 + from_i32 imm) % 2 ^ 32) 32 := by
  have p64 : (2 : Nat) ^ 64 = 18446744073709551616 := by norm_num
  have p32 : (2 : Nat) ^ 32 = 4294967296 := by norm_num
  have q32 : (2 : Int) ^ 32 = 4294967296 := by norm_num
  refine ⟨?_, ?_, ?_⟩
  · simp only [Common.addw, from_u8]
    rw [update_register_self _ _ _ h]
    exact sign_extend_congr 32 (by
      unfold overflowing_add
      rw [mod32_of_mod64, Nat.mod_mod_of_dvd _ dvd_rfl])
  · simp only [Common.subw, from_u8]
    rw [update_register_self _ _ _ h]
    exact sign_extend_congr 32 (by
      unfold overflowing_sub
      rw [p64, p32, q32]
      omega)
  · simp only [Common.addiw, from_u8]
    rw [update_register_self _ _ _ h]
    exact sign_extend_congr 32 (by
      unfold overflowing_add
      rw [mod32_of_mod64, Nat.mod_mod_of_dvd _ dvd_rfl])

end CkbVM

namespace CkbVM

theorem jal_fst (m : Machine) (rd : Fin 32) (imm : Int) (xbytes : Nat) :
    (Common.jal m rd imm xbytes).1
      = update_pc (update_register m rd (overflowing_add m.pc (from_u8 xbytes)))
          (overflowing_add m.pc (from_i32 imm)) := by
  unfold Common.jal
  simp only [Common.probe_jump, Common.probe_function_call, update_register_pc]
  split <;> rfl

theorem jal_snd (m : Machine) (rd : Fin 32) (imm : Int) (xbytes : Nat) :
    (Common.jal m rd imm xbytes).2
      = ProbeEvent.jump (overflowing_add m.pc (from_u8 xbytes))
          (overflowing_add m.pc (from_i32 imm))
        :: (if rd = RA then
              [ProbeEvent.function_call_arguments m.pc
                 (overflowing_add m.pc (from_i32 imm))
                 (m.registers A0) (m.registers A1) (m.registers A2) (m.registers A3),
               ProbeEvent.function_call2 m.pc
                 (overflowing_add m.pc (from_i32 imm))
                 (m.registers A4) (m.registers A5) (m.registers A6) (m.registers A7)]
            else []) := by
  unfold Common.jal
  simp only [Common.probe_jump, Common.probe_function_call, update_register_pc, to_u64]
  split
  · rename_i hra
    rw [update_register_other _ _ _ _ (by rw [hra]; decide),
        update_register_other _ _ _ _ (by rw [hra]; decide),
        update_register_other _ _ _ _ (by rw [hra]; decide),
        update_register_other _ _ _ _ (by rw [hra]; decide),
        update_register_other _ _ _ _ (by rw [hra]; decide),
        update_register_other _ _ _ _ (by rw [hra]; decide),
        update_register_other _ _ _ _ (by rw [hra]; decide),
        update_register_other _ _ _ _ (by rw [hra]; decide)]
    rfl
  · rfl

/-- C3: `jal` sets `x[rd] = old_PC + xbytes` (wrapping; dropped when rd = 0)
and `PC = old_PC + sign_ext(imm)`, both computed from the PC before the
instruction: the link write precedes the PC update and the re-read of the PC
for the jump target still observes the original PC. -/
theorem jal_links_then_jumps (m : Machine) (rd : Fin 32) (imm : Int) (xbytes : Nat) :
    (Common.jal m rd imm xbytes).1.pc = (m.pc + from_i32 imm) % 2 ^ 64
    ∧ (rd ≠ 0 → (Common.jal m rd imm xbytes).1.registers rd = (m.pc + xbytes) % 2 ^ 64)
    ∧ (rd = 0 → (Common.jal m rd imm xbytes).1.registers = m.registers)
    ∧ ∀ i : Fin 32, i ≠ rd → (Common.jal m rd imm xbytes).1.registers i = m.registers i := by
  rw [jal_fst]
  refine ⟨rfl, ?_, ?_, ?_⟩
  · intro h
    simp only [update_pc]
    rw [update_register_self _ _ _ h]
    rfl
  · intro h
    subst h
    simp only [update_pc]
    rw [update_register_zero]
  · intro i hi
    simp only [update_pc]
    exact update_register_other _ _ _ _ hi

end CkbVM

namespace CkbVM

/-- C6: every executor of `common.rs` invoked with rd = 0 leaves the register
file completely unchanged — the write to x[0] is dropped by the single
`update_register` helper — so x[0] keeps reading as 0. -/
theorem writes_to_r0_dropped (m : Machine) (rs1 rs2 : Fin 32) (imm : Int)
    (shamt : Nat) (version0 : Bool) (xbytes : Nat) :
    (Common.add m 0 rs1 rs2).registers = m.registers
    ∧ (Common.addw m 0 rs1 rs2).registers = m.registers
    ∧ (Common.sub m 0 rs1 rs2).registers = m.registers
    ∧ (Common.subw m 0 rs1 rs2).registers = m.registers
    ∧ (Common.addi m 0 rs1 imm).registers = m.registers
    ∧ (Common.addiw m 0 rs1 imm).registers = m.registers
    ∧ (Common.lb m 0 rs1 imm version0).1.registers = m.registers
    ∧ (Common.lh m 0 rs1 imm version0).1.registers = m.registers
    ∧ (Common.lw m 0 rs1 imm version0).1.registers = m.registers
    ∧ (Common.ld m 0 rs1 imm version0).1.registers = m.registers
    ∧ (Common.lbu m 0 rs1 imm version0).1.registers = m.registers
    ∧ (Common.lhu m 0 rs1 imm version0).1.registers = m.registers
    ∧ (Common.lwu m 0 rs1 imm version0).1.registers = m.registers
    ∧ (Common.and m 0 rs1 rs2).registers = m.registers
    ∧ (Common.xor m 0 rs1 rs2).registers = m.registers
    ∧ (Common.or m 0 rs1 rs2).registers = m.registers
    ∧ (Common.andi m 0 rs1 imm).registers = m.registers
    ∧ (Common.xori m 0 rs1 imm).registers = m.registers
    ∧ (Common.ori m 0 rs1 imm).registers = m.registers
    ∧ (Common.slli m 0 rs1 shamt).registers = m.registers
    ∧ (Common.srli m 0 rs1 shamt).registers = m.registers
    ∧ (Common.srai m 0 rs1 shamt).registers = m.registers
    ∧ (Common.slliw m 0 rs1 shamt).registers = m.registers
    ∧ (Common.srliw m 0 rs1 shamt).registers = m.registers
    ∧ (Common.sraiw m 0 rs1 shamt).registers = m.registers
    ∧ (Common.jal m 0 imm xbytes).1.registers = m.registers := by
  refine ⟨?_, ?_, ?_, ?_, ?_, ?_, ?_, ?_, ?_, ?_, ?_, ?_, ?_, ?_, ?_, ?_, ?_,
    ?_, ?_, ?_, ?_, ?_, ?_, ?_, ?_, ?_⟩ <;>
    first
      | (simp only [Common.add, Common.addw, Common.sub, Common.subw, Common.addi,
          Common.addiw, Common.and, Common.xor, Common.or, Common.andi, Common.xori,
          Common.ori, Common.slli, Common.srli, Common.srai, Common.slliw,
          Common.srliw, Common.sraiw];
         rw [update_register_zero])
      | (simp only [Common.lb, Common.lh, Common.lw, Common.ld, Common.lbu,
          Common.lhu, Common.lwu];
         split <;> first
           | rfl
           | (split <;> first | rfl | rw [update_register_zero]))
      | (rw [jal_fst]; simp only [update_pc]; rw [update_register_zero])

/-- C8: the probe helpers of `probe.rs` leave the machine state (registers,
memory and PC) unchanged, and within `jal` the `jump` probe fires on every
execution while the `function_call` probes fire exactly when rd is the
return-address register r1. -/
theorem probes_observability_only (m : Machine) (rd : Fin 32) (imm : Int)
    (xbytes : Nat) (cpc npc link code : Nat) :
    (Probe.probe_jump m link npc).1 = m
    ∧ (Probe.probe_function_call m cpc npc).1 = m
    ∧ (Probe.probe_function_return m cpc npc).1 = m
    ∧ (Probe.probe_syscall m code).1 = m
    ∧ (Probe.probe_syscall_return m code).1 = m
    ∧ (Common.jal m rd imm xbytes).2
        = ProbeEvent.jump (overflowing_add m.pc (from_u8 xbytes))
            (overflowing_add m.pc (from_i32 imm))
          :: (if rd = RA then
                [ProbeEvent.function_call_arguments m.pc
                   (overflowing_add m.pc (from_i32 imm))
                   (m.registers A0) (m.registers A1) (m.registers A2) (m.registers A3),
                 ProbeEvent.function_call2 m.pc
                   (overflowing_add m.pc (from_i32 imm))
                   (m.registers A4) (m.registers A5) (m.registers A6) (m.registers A7)]
              else []) :=
  ⟨rfl, rfl, rfl, rfl, rfl, jal_snd m rd imm xbytes⟩

/-- C9: the `probe_*` helpers duplicated in `src/instructions/common.rs` are
behaviorally identical to the definitions of the same names in
`src/probe.rs`: same machine reads, same emitted events, unchanged state. -/
theorem probe_duplicates_behaviorally_identical :
    (∀ (m : Machine) (cpc npc : Nat),
        Common.probe_function_call m cpc npc = Probe.probe_function_call m cpc npc)
    ∧ (∀ (m : Machine) (cpc rpc : Nat),
        Common.probe_function_return m cpc rpc = Probe.probe_function_return m cpc rpc)
    ∧ (∀ (m : Machine) (link npc : Nat),
        Common.probe_jump m link npc = Probe.probe_jump m link npc) :=
  ⟨fun _ _ _ => rfl, fun _ _ _ => rfl, fun _ _ _ => rfl⟩

end CkbVM

namespace CkbVM

theorem check_load_boundary_v0_err (address bytes : Nat)
    (hb : 2 ^ 64 ≤ address + bytes ∨ address + bytes = RISCV_MAX_MEMORY) :
    Common.check_load_boundary true address bytes
      = Except.error Error.MemOutOfBound := by
  rcases hb with hb | hb
  · have h1 : ¬ (address + bytes < 18446744073709551616) := by
      norm_num at hb; omega
    simp [Common.check_load_boundary, Common.checked_add, to_u64, h1]
  · have h1 : address + bytes < 2 ^ 64 := by
      rw [hb]; norm_num [RISCV_MAX_MEMORY]
    simp [Common.check_load_boundary, Common.checked_add, to_u64, h1, hb,
      RISCV_MAX_MEMORY]

/-- C1: with version0 = true, a load whose end address `x[rs1] + sign_ext(imm)
+ bytes` overflows u64 or equals RISCV_MAX_MEMORY returns MemOutOfBound with
the machine untouched, before any memory access (the memory interface does
not appear in the result); with version0 = false no boundary-equality
rejection is performed and the load proceeds directly to the memory
interface. -/
theorem version0_load_boundary (m : Machine) (rd rs1 : Fin 32) (imm : Int) :
    (2 ^ 64 ≤ overflowing_add (m.registers rs1) (from_i32 imm) + 1
       ∨ overflowing_add (m.registers rs1) (from_i32 imm) + 1 = RISCV_MAX_MEMORY →
       Common.lb m rd rs1 imm true = (m, some Error.MemOutOfBound))
    ∧ (2 ^ 64 ≤ overflowing_add (m.registers rs1) (from_i32 imm) + 2
       ∨ overflowing_add (m.registers rs1) (from_i32 imm) + 2 = RISCV_MAX_MEMORY →
       Common.lh m rd rs1 imm true = (m, some Error.MemOutOfBound))
    ∧ (2 ^ 64 ≤ overflowing_add (m.registers rs1) (from_i32 imm) + 4
       ∨ overflowing_add (m.registers rs1) (from_i32 imm) + 4 = RISCV_MAX_MEMORY →
       Common.lw m rd rs1 imm true = (m, some Error.MemOutOfBound))
    ∧ (2 ^ 64 ≤ overflowing_add (m.registers rs1) (from_i32 imm) + 8
       ∨ overflowing_add (m.registers rs1) (from_i32 imm) + 8 = RISCV_MAX_MEMORY →
       Common.ld m rd rs1 imm true = (m, some Error.MemOutOfBound))
    ∧ (2 ^ 64 ≤ overflowing_add (m.registers rs1) (from_i32 imm) + 1
       ∨ overflowing_add (m.registers rs1) (from_i32 imm) + 1 = RISCV_MAX_MEMORY →
       Common.lbu m rd rs1 imm true = (m, some Error.MemOutOfBound))
    ∧ (2 ^ 64 ≤ overflowing_add (m.registers rs1) (from_i32 imm) + 2
       ∨ overflowing_add (m.registers rs1) (from_i32 imm) + 2 = RISCV_MAX_MEMORY →
       Common.lhu m rd rs1 imm true = (m, some Error.MemOutOfBound))
    ∧ (2 ^ 64 ≤ overflowing_add (m.registers rs1) (from_i32 imm) + 4
       ∨ overflowing_add (m.registers rs1) (from_i32 imm) + 4 = RISCV_MAX_MEMORY →
       Common.lwu m rd rs1 imm true = (m, some Error.MemOutOfBound))
    ∧ (Common.lb m rd rs1 imm false
       = match m.mem.load8 (overflowing_add (m.registers rs1) (from_i32 imm)) with
         | Except.error e => (m, some e)
         | Except.ok value => (update_register m rd (sign_extend value 8), none))
    ∧ (Common.lh m rd rs1 imm false
       = match m.mem.load16 (overflowing_add (m.registers rs1) (from_i32 imm)) with
         | Except.error e => (m, some e)
         | Except.ok value => (update_register m rd (sign_extend value 16), none))
    ∧ (Common.lw m rd rs1 imm false
       = match m.mem.load32 (overflowing_add (m.registers rs1) (from_i32 imm)) with
         | Except.error e => (m, some e)
         | Except.ok value => (update_register m rd (sign_extend value 32), none))
    ∧ (Common.ld m rd rs1 imm false
       = match m.mem.load64 (overflowing_add (m.registers rs1) (from_i32 imm)) with
         | Except.error e => (m, some e)
         | Except.ok value => (update_register m rd (sign_extend value 64), none))
    ∧ (Common.lbu m rd rs1 imm false
       = match m.mem.load8 (overflowing_add (m.registers rs1) (from_i32 imm)) with
         | Except.error e => (m, some e)
         | Except.ok value => (update_register m rd value, none))
    ∧ (Common.lhu m rd rs1 imm false
       = match m.mem.load16 (overflowing_add (m.registers rs1) (from_i32 imm)) with
         | Except.error e => (m, some e)
         | Except.ok value => (update_register m rd value, none))
    ∧ (Common.lwu m rd rs1 imm false
       = match m.mem.load32 (overflowing_add (m.registers rs1) (from_i32 imm)) with
         | Except.error e => (m, some e)
         | Except.ok value => (update_register m rd value, none)) := by
  refine ⟨?_, ?_, ?_, ?_, ?_, ?_, ?_, ?_, ?_, ?_, ?_, ?_, ?_, ?_⟩ <;>
    first
      | (intro hb;
         simp only [Common.lb, Common.lh, Common.lw, Common.ld, Common.lbu,
           Common.lhu, Common.lwu];
         rw [check_load_boundary_v0_err _ _ hb])
      | rfl

end CkbVM

namespace CkbVM

theorem sign_extend_64_of_lt (v : Nat) (hv : v < 2 ^ 64) : sign_extend v 64 = v := by
  simp only [sign_extend]
  rw [Nat.mod_eq_of_lt hv]
  split <;> norm_num

/-- C4: when the boundary check and the memory load succeed, `lb`, `lh` and
`lw` write the loaded value sign-extended from bit 8, 16 and 32 to rd
(rd nonzero); `lbu`, `lhu` and `lwu` write the memory interface value
unmodified; `ld` writes the full 64-bit loaded value (sign-extension at bit
64 is the identity on the memory contract's range). -/
theorem loads_extend_correctly (m : Machine) (rd rs1 : Fin 32) (imm : Int)
    (version0 : Bool) (v : Nat) (h : rd ≠ 0) :
    (Common.check_load_boundary version0
        (overflowing_add (m.registers rs1) (from_i32 imm)) 1 = Except.ok () →
      m.mem.load8 (overflowing_add (m.registers rs1) (from_i32 imm)) = Except.ok v →
      (Common.lb m rd rs1 imm version0).1.registers rd = sign_extend v 8
      ∧ (Common.lb m rd rs1 imm version0).2 = none)
    ∧ (Common.check_load_boundary version0
        (overflowing_add (m.registers rs1) (from_i32 imm)) 2 = Except.ok () →
      m.mem.load16 (overflowing_add (m.registers rs1) (from_i32 imm)) = Except.ok v →
      (Common.lh m rd rs1 imm version0).1.registers rd = sign_extend v 16
      ∧ (Common.lh m rd rs1 imm version0).2 = none)
    ∧ (Common.check_load_boundary version0
        (overflowing_add (m.registers rs1) (from_i32 imm)) 4 = Except.ok () →
      m.mem.load32 (overflowing_add (m.registers rs1) (from_i32 imm)) = Except.ok v →
      (Common.lw m rd rs1 imm version0).1.registers rd = sign_extend v 32
      ∧ (Common.lw m rd rs1 imm version0).2 = none)
    ∧ (Common.check_load_boundary version0
        (overflowing_add (m.registers rs1) (from_i32 imm)) 8 = Except.ok () →
      m.mem.load64 (overflowing_add (m.registers rs1) (from_i32 imm)) = Except.ok v →
      v < 2 ^ 64 →
      (Common.ld m rd rs1 imm version0).1.registers rd = v
      ∧ (Common.ld m rd rs1 imm version0).2 = none)
    ∧ (Common.check_load_boundary version0
        (overflowing_add (m.registers rs1) (from_i32 imm)) 1 = Except.ok () →
      m.mem.load8 (overflowing_add (m.registers rs1) (from_i32 imm)) = Except.ok v →
      (Common.lbu m rd rs1 imm version0).1.registers rd = v
      ∧ (Common.lbu m rd rs1 imm version0).2 = none)
    ∧ (Common.check_load_boundary version0
        (overflowing_add (m.registers rs1) (from_i32 imm)) 2 = Except.ok () →
      m.mem.load16 (overflowing_add (m.registers rs1) (from_i32 imm)) = Except.ok v →
      (Common.lhu m rd rs1 imm version0).1.registers rd = v
      ∧ (Common.lhu m rd rs1 imm version0).2 = none)
    ∧ (Common.check_load_boundary version0
        (overflowing_add (m.registers rs1) (from_i32 imm)) 4 = Except.ok () →
      m.mem.load32 (overflowing_add (m.registers rs1) (from_i32 imm)) = Except.ok v →
      (Common.lwu m rd rs1 imm version0).1.registers rd = v
      ∧ (Common.lwu m rd rs1 imm version0).2 = none) := by
  refine ⟨?_, ?_, ?_, ?_, ?_, ?_, ?_⟩
  · intro hb hm
    simp only [Common.lb, hb, hm]
    exact ⟨by rw [update_register_self _ _ _ h] <;> rfl, by trivial⟩
  · intro hb hm
    simp only [Common.lh, hb, hm]
    exact ⟨by rw [update_register_self _ _ _ h] <;> rfl, by trivial⟩
  · intro hb hm
    simp only [Common.lw, hb, hm]
    exact ⟨by rw [update_register_self _ _ _ h] <;> rfl, by trivial⟩
  · intro hb hm hv
    simp only [Common.ld, hb, hm]
    exact ⟨by rw [update_register_self _ _ _ h]; exact sign_extend_64_of_lt v hv, by trivial⟩
  · intro hb hm
    simp only [Common.lbu, hb, hm]
    exact ⟨by rw [update_register_self _ _ _ h] <;> rfl, by trivial⟩
  · intro hb hm
    simp only [Common.lhu, hb, hm]
    exact ⟨by rw [update_register_self _ _ _ h] <;> rfl, by trivial⟩
  · intro hb hm
    simp only [Common.lwu, hb, hm]
    exact ⟨by rw [update_register_self _ _ _ h] <;> rfl, by trivial⟩

/-- C10: whenever a load executor returns an error — from the version0
boundary check or from the memory interface — the register file is
unchanged: rd is written only after both have succeeded. -/
theorem loads_error_leave_registers (m : Machine) (rd rs1 : Fin 32) (imm : Int)
    (version0 : Bool) (e : Error) :
    ((Common.lb m rd rs1 imm version0).2 = some e →
      (Common.lb m rd rs1 imm version0).1.registers = m.registers)
    ∧ ((Common.lh m rd rs1 imm version0).2 = some e →
      (Common.lh m rd rs1 imm version0).1.registers = m.registers)
    ∧ ((Common.lw m rd rs1 imm version0).2 = some e →
      (Common.lw m rd rs1 imm version0).1.registers = m.registers)
    ∧ ((Common.ld m rd rs1 imm version0).2 = some e →
      (Common.ld m rd rs1 imm version0).1.registers = m.registers)
    ∧ ((Common.lbu m rd rs1 imm version0).2 = some e →
      (Common.lbu m rd rs1 imm version0).1.registers = m.registers)
    ∧ ((Common.lhu m rd rs1 imm version0).2 = some e →
      (Common.lhu m rd rs1 imm version0).1.registers = m.registers)
    ∧ ((Common.lwu m rd rs1 imm version0).2 = some e →
      (Common.lwu m rd rs1 imm version0).1.registers = m.registers) := by
  refine ⟨?_, ?_, ?_, ?_, ?_, ?_, ?_⟩ <;>
    (intro he;
     simp only [Common.lb, Common.lh, Common.lw, Common.ld, Common.lbu,
       Common.lhu, Common.lwu] at he ⊢;
     split at he <;>
       first
         | rfl
         | (split at he <;> first | rfl | simp at he))

end CkbVM

namespace CkbVM

/-- C5: for shamt < 32, `slliw` writes `sign_extend_32` of the low 32 bits of
x[rs1] shifted left, `srliw` writes `sign_extend_32` of the low 32 bits
logically shifted right, and `sraiw` writes `sign_extend_32` of the 32-bit
sign-extended value arithmetically shifted right (rd nonzero); in all three
the result depends only on the low 32 bits of x[rs1]. -/
theorem shifts_w_depend_on_low32 (m : Machine) (rd rs1 : Fin 32) (shamt : Nat)
    (hs : shamt < 32) (h : rd ≠ 0) :
    (Common.slliw m rd rs1 shamt).registers rd
      = sign_extend (m.registers rs1 % 2 ^ 32 * 2 ^ shamt % 2 ^ 32) 32
    ∧ (Common.srliw m rd rs1 shamt).registers rd
      = sign_extend (m.registers rs1 % 2 ^ 32 / 2 ^ shamt) 32
    ∧ (Common.sraiw m rd rs1 shamt).registers rd
      = sign_extend (signed_shr (sign_extend (m.registers rs1 % 2 ^ 32) 32) shamt) 32 := by
  have hs64 : shamt % 64 = shamt := Nat.mod_eq_of_lt (by omega)
  refine ⟨?_, ?_, ?_⟩
  · simp only [Common.slliw, from_u8]
    rw [update_register_self _ _ _ h]
    refine sign_extend_congr 32 ?_
    unfold shl
    rw [hs64, mod32_of_mod64, Nat.mod_mod_of_dvd _ dvd_rfl]
    exact ((Nat.mod_modEq (m.registers rs1) (2 ^ 32)).mul_right (2 ^ shamt)).symm
  · simp only [Common.srliw, from_u8]
    rw [update_register_self _ _ _ h]
    unfold shr zero_extend
    rw [hs64, Nat.mod_eq_of_lt
      (lt_of_lt_of_le (Nat.mod_lt _ (by positivity)) (by norm_num))]
  · simp only [Common.sraiw, from_u8]
    rw [update_register_self _ _ _ h,
      sign_extend_congr 32 (Nat.mod_mod_of_dvd (m.registers rs1) dvd_rfl).symm]

end CkbVM

namespace CkbVM

/-- C7 (counterexample): at opcode 0x27 the name table returns
"JALR_VERSION0" while the specification's section 6 enumeration prints
"JALR_V0" at that position, so `instruction_opcode_name` does not return the
name at position `i - 0x10` of that enumeration as printed. -/
theorem opcode_name_diverges_from_spec_enumeration :
    MINIMAL_OPCODE ≤ OP_JALR_VERSION0
    ∧ OP_JALR_VERSION0 ≤ MAXIMUM_OPCODE
    ∧ specSection6Names.getD (OP_JALR_VERSION0 - MINIMAL_OPCODE) "" = "JALR_V0"
    ∧ instruction_opcode_name OP_JALR_VERSION0 = "JALR_VERSION0"
    ∧ instruction_opcode_name OP_JALR_VERSION0
        ≠ specSection6Names.getD (OP_JALR_VERSION0 - MINIMAL_OPCODE) "" := by
  refine ⟨by decide, by decide, rfl, rfl, by decide⟩

set_option maxRecDepth 10000 in
/-- C7 (amended): the first-level opcode constants occupy exactly the
consecutive values 0x10 (OP_UNLOADED) through 0xAC (OP_CUSTOM_TRACE_END) in
the order the specification's section 6 table enumerates, and for
MINIMAL_OPCODE ≤ i ≤ MAXIMUM_OPCODE the table index is in bounds and
`instruction_opcode_name i` returns the name at position `i - 0x10` of that
enumeration with its abbreviated `_V0`/`_V1` suffixes spelled
`_VERSION0`/`_VERSION1`. -/
theorem opcode_table_layout :
    specOrderOpcodes = (List.range 157).map (fun k => 0x10 + k)
    ∧ INSTRUCTION_OPCODE_NAMES = specSection6Names.map expandVersionSuffix
    ∧ ∀ i, MINIMAL_OPCODE ≤ i → i ≤ MAXIMUM_OPCODE →
        i - MINIMAL_OPCODE < INSTRUCTION_OPCODE_NAMES.length
        ∧ instruction_opcode_name i
          = (specSection6Names.map expandVersionSuffix).getD (i - MINIMAL_OPCODE) "" := by
  have hnames : INSTRUCTION_OPCODE_NAMES = specSection6Names.map expandVersionSuffix := by
    decide
  refine ⟨by decide, hnames, ?_⟩
  intro i h1 h2
  have hlen : INSTRUCTION_OPCODE_NAMES.length = 157 := by decide
  constructor
  · rw [hlen]
    simp only [MINIMAL_OPCODE, MAXIMUM_OPCODE, OP_UNLOADED, OP_CUSTOM_TRACE_END] at h1 h2 ⊢
    omega
  · unfold instruction_opcode_name
    rw [hnames]

end CkbVM

namespace CkbVM

/-- A memory whose loads all succeed with the same value, for concrete runs. -/
def constMemory (v : Nat) : Memory :=
  ⟨fun _ => Except.ok v, fun _ => Except.ok v, fun _ => Except.ok v, fun _ => Except.ok v⟩

/-- A concrete machine: x2 holds `RISCV_MAX_MEMORY - 4`, x3 holds 5, the
other registers 0; the PC is 100; every load yields 7. -/
def exampleMachine : Machine where
  registers := fun i => if i = 2 then RISCV_MAX_MEMORY - 4 else if i = 3 then 5 else 0
  pc := 100
  mem := constMemory 7

theorem version0_load_boundary_witness :
    (Common.lw exampleMachine 1 2 0 true).2 = some Error.MemOutOfBound
    ∧ (Common.lw exampleMachine 1 2 0 false).2 = none := by
  have h := version0_load_boundary exampleMachine 1 2 0
  constructor
  · exact (congrArg Prod.snd (h.2.2.1 (Or.inr (by decide)))).trans rfl
  · exact (congrArg Prod.snd h.2.2.2.2.2.2.2.2.2.1).trans (by decide)

theorem addw_subw_addiw_witness :
    (Common.addw exampleMachine 5 2 3).registers 5 = 4194305
    ∧ (Common.subw exampleMachine 5 2 3).registers 5 = 4194295
    ∧ (Common.addiw exampleMachine 5 2 (-1)).registers 5 = 4194299 := by
  have h := addw_subw_addiw_compute_at_32_bits exampleMachine 5 2 3 (-1) (by decide)
  exact ⟨h.1.trans (by decide), h.2.1.trans (by decide), h.2.2.trans (by decide)⟩

theorem jal_links_then_jumps_witness :
    (Common.jal exampleMachine 1 8 4).1.pc = 108
    ∧ (Common.jal exampleMachine 1 8 4).1.registers 1 = 104
    ∧ (Common.jal exampleMachine 1 8 4).1.registers 2 = 4194300 := by
  have h := jal_links_then_jumps exampleMachine 1 8 4
  refine ⟨h.1.trans (by decide), ?_, ?_⟩
  · exact (h.2.1 (by decide)).trans (by decide)
  · exact (h.2.2.2 2 (by decide)).trans (by decide)

theorem loads_extend_correctly_witness :
    (Common.lb exampleMachine 5 0 0 true).1.registers 5 = 7
    ∧ (Common.lb exampleMachine 5 0 0 true).2 = none := by
  have h := loads_extend_correctly exampleMachine 5 0 0 true 7 (by decide)
  have h2 := h.1 rfl rfl
  exact ⟨h2.1.trans (by decide), h2.2⟩

theorem shifts_w_witness :
    (Common.slliw exampleMachine 5 3 31).registers 5 = 18446744071562067968
    ∧ (Common.srliw exampleMachine 5 3 31).registers 5 = 0
    ∧ (Common.sraiw exampleMachine 5 3 31).registers 5 = 0 := by
  have h := shifts_w_depend_on_low32 exampleMachine 5 3 31 (by decide) (by decide)
  exact ⟨h.1.trans (by decide), h.2.1.trans (by decide), h.2.2.trans (by decide)⟩

set_option maxRecDepth 10000 in
theorem opcode_table_layout_witness :
    OP_ADD - MINIMAL_OPCODE < INSTRUCTION_OPCODE_NAMES.length
    ∧ instruction_opcode_name OP_ADD = "ADD" := by
  have h := opcode_table_layout.2.2 OP_ADD (by decide) (by decide)
  exact ⟨h.1, h.2.trans (by decide)⟩

theorem loads_error_leave_registers_witness :
    (Common.lw exampleMachine 1 2 0 true).1.registers = exampleMachine.registers := by
  have h := loads_error_leave_registers exampleMachine 1 2 0 true Error.MemOutOfBound
  exact h.2.2.1 (by decide)

end CkbVM
